import Mathlib

/-
Verification of the NDISuite backend's RAG/report pipelines against their
natural-language specification.  The definitions below are shallow
embeddings of:
  backend/reports/tasks.py      (generate_report_task, export helpers)
  backend/files/services.py     (DocumentProcessingService)
  backend/files/signals.py      (post-save ingest trigger)
  backend/files/tasks.py        (process_file_task)
  backend/transcription/tasks.py (embed_transcript_task)
  backend/ndisuite/settings.py  (RAG_TOP_K)
-/

/-! ## Common metadata model

Chroma/LangChain document metadata is a Python dict whose values in this
codebase are strings or integers.  We model it as an association list. -/

/-- Metadata value: either a string or an integer.  These are the only value
kinds this codebase ever stores in chunk metadata. -/
inductive MVal where
  | s (v : String)
  | n (v : Int)
deriving DecidableEq

/-- Metadata dictionary: an association list from keys to values, in insertion
order, modelling a Python dict literal. -/
abbrev Metadata := List (String × MVal)

/-- Concatenation of the lists produced by applying a function to each element,
in order (Python-style list building inside a for loop). -/
def catMap (f : α → List β) : List α → List β
  | [] => []
  | a :: l => f a ++ catMap f l

/-- Models Python str.strip with no argument: remove leading and trailing
whitespace characters. -/
def py_strip (s : String) : String :=
  ⟨((s.data.dropWhile Char.isWhitespace).reverse.dropWhile Char.isWhitespace).reverse⟩

/-- Parses a nonempty run of decimal digits, as Python int() does for plain
digit strings; none for the empty or a non-digit string. -/
def digits_to_nat : List Char → Option Nat
  | [] => none
  | l => l.foldl (fun acc c =>
      match acc with
      | none => none
      | some n => if c.isDigit then some (n * 10 + (c.toNat - 48)) else none) (some 0)

/-- Models Python int(s) for the decimal strings that can reach the
RAG_TOP_K setting: an optional leading minus sign followed by digits;
none when int() would raise ValueError. -/
def py_int (s : String) : Option Int :=
  match s.data with
  | '-' :: rest => (digits_to_nat rest).map (fun n => -(n : Int))
  | l => (digits_to_nat l).map (fun n => (n : Int))

/-! ## RAG retrieval model (backend/reports/tasks.py, generate_report_task)

A Chroma store rooted at one persist_directory holds documents tagged with a
collection name.  Retrieval with a metadata filter can only ever surface the
documents of the named collection whose metadata satisfies the filter, so we
model a query as exactly that set. -/

/-- LangChain Document as returned by a Chroma retriever: page content plus
its metadata dict. -/
structure RagDoc where
  page_content : String
  metadata : Metadata
deriving DecidableEq

/-- Similarity key used by the merge step:
d.metadata.get("similarity", 0).  The codebase never writes a
non-numeric "similarity" value, so a missing or non-numeric entry reads
as the Python default 0. -/
def sim_of (d : RagDoc) : Int :=
  match d.metadata.lookup "similarity" with
  | some (MVal.n v) => v
  | _ => 0

/-- Ordering used by all_chunks.sort(key=..., reverse=True): descending
similarity. -/
def chunk_ge (a b : RagDoc) : Prop := sim_of b ≤ sim_of a

instance : DecidableRel chunk_ge := fun a b => Int.decLe (sim_of b) (sim_of a)

instance : IsTotal RagDoc chunk_ge := ⟨fun a b => Int.le_total (sim_of b) (sim_of a)⟩

instance : IsTrans RagDoc chunk_ge := ⟨fun _ _ _ h1 h2 => Int.le_trans h2 h1⟩

/-- Session data visible to generate_report_task: the session id (as the
string str(session.id)) and the ids of the session's files
([str(file.id) for file in session.files.all()]). -/
structure SessionData where
  id : String
  fileIds : List String

/-- Whole persisted Chroma store: pairs of (collection name, stored document).
One entry per add_texts/add_documents insertion. -/
abbrev ChromaStore := List (String × RagDoc)

/-- Documents a Chroma retriever over collection coll with metadata filter
filt can possibly return: members of that collection whose metadata passes
the filter.  Real similarity search returns a subset of this list. -/
def chroma_query (store : ChromaStore) (coll : String) (filt : Metadata → Bool) : List RagDoc :=
  (store.filter (fun p => decide (p.1 = coll) && filt p.2.metadata)).map Prod.snd

/-- Collection name of the vector store behind the document retriever:
Chroma(collection_name=f"session_\x7bsession.id\x7d", ...) at
reports/tasks.py line 53. -/
def doc_retriever_collection (sessionId : String) : String := "session_" ++ sessionId

/-- Collection name of the vector store behind the transcript retriever:
Chroma(collection_name=transcript_ns, ...) with
transcript_ns = f"session_\x7bsession.id\x7d" at reports/tasks.py line 85. -/
def trans_retriever_collection (sessionId : String) : String := "session_" ++ sessionId

/-- Document retriever filter from reports/tasks.py lines 70-77:
\x7b"file_id": \x7b"$in": file_ids\x7d, "session_id": str(session.id)\x7d.
A document matches when its file_id is in the list and its session_id equals
the session id. -/
def doc_metadata_filter (fileIds : List String) (sessionId : String) (md : Metadata) : Bool :=
  (match md.lookup "file_id" with
   | some (MVal.s v) => fileIds.contains v
   | _ => false)
  && decide (md.lookup "session_id" = some (MVal.s sessionId))

/-- Transcript retriever filter from reports/tasks.py line 94:
\x7b"session_id": str(session.id), "type": "transcript"\x7d. -/
def transcript_metadata_filter (sessionId : String) (md : Metadata) : Bool :=
  decide (md.lookup "session_id" = some (MVal.s sessionId))
  && decide (md.lookup "type" = some (MVal.s "transcript"))

/-- Set of documents the document retriever can return for a session. -/
def doc_retrieve (store : ChromaStore) (s : SessionData) : List RagDoc :=
  chroma_query store (doc_retriever_collection s.id) (doc_metadata_filter s.fileIds s.id)

/-- Set of documents the transcript retriever can return for a session. -/
def trans_retrieve (store : ChromaStore) (s : SessionData) : List RagDoc :=
  chroma_query store (trans_retriever_collection s.id) (transcript_metadata_filter s.id)

/-- Models settings.RAG_TOP_K = int(os.environ.get("RAG_TOP_K", "5")):
the environment value when set, else the default string "5", through int(). -/
def RAG_TOP_K (envValue : Option String) : Option Int :=
  py_int (envValue.getD "5")

/-- Merge step of generate_report_task (lines 179-190): concatenate document
and transcript chunks; when nonempty, stable-sort by descending
metadata.get("similarity", 0) and keep the first RAG_TOP_K entries. -/
def rag_merge_chunks (docChunks transChunks : List RagDoc) (k : Nat) : List RagDoc :=
  let all := docChunks ++ transChunks
  if all = [] then all
  else (List.insertionSort chunk_ge all).take k

/-- Source tag of a chunk in the context header:
metadata.get("source_type", "file"), overridden to "transcript" when
metadata.get("type") == "transcript".  Only string values are ever written
for these keys. -/
def source_type_of (d : RagDoc) : String :=
  let st := match d.metadata.lookup "source_type" with
    | some (MVal.s v) => v
    | _ => "file"
  if d.metadata.lookup "type" = some (MVal.s "transcript") then "transcript" else st

/-- Rendering of one surviving chunk into the context string (lines 192-198):
header plus stripped page content. -/
def render_chunk (idx : Nat) (d : RagDoc) : String :=
  "[DOC " ++ toString (idx + 1) ++ " | src=" ++ source_type_of d ++ "]" ++ "\n"
    ++ py_strip d.page_content ++ "\n\n"

/-- Context accumulated over the surviving chunks, in their post-sort order. -/
def build_context (chunks : List RagDoc) : String :=
  String.join ((chunks.enum).map (fun p => render_chunk p.1 p.2))

/-- Final context for one field: the accumulated chunk text, or the fallback
message when it strips to empty (lines 203-204). -/
def field_context (docChunks transChunks : List RagDoc) (k : Nat) : String :=
  let ctx := build_context (rag_merge_chunks docChunks transChunks k)
  if py_strip ctx = "" then
    "No relevant documents or transcripts found for this query."
  else ctx

/-- Leading part of the per-field system prompt (lines 209-221), up to the
interpolated context. -/
def system_prompt_head (fieldLabel : String) : String :=
  "You are an expert NDIS report writer. Your task is to generate content for the "
    ++ fieldLabel
    ++ " section of an NDIS report.\n            \nGuidelines:\n- Use professional, clear language appropriate for NDIS reports\n- Be specific and provide relevant details\n- Focus on the client\x27s support needs, goals, and progress\n- Avoid vague language and generalizations\n- Use person-centered language\n- Be objective and evidence-based\n- Follow any specific instructions in the prompt\n\nUse the following context to inform your response:\n"

/-- System prompt handed to the LLM for one field: the fixed head, the
retrieved context, and the trailing indentation of the Python string. -/
def system_prompt (fieldLabel context : String) : String :=
  system_prompt_head fieldLabel ++ context ++ "\n            "

/-! ## File ingestion model (backend/files/services.py, signals.py, tasks.py)

process_file_task loads the InputFile and runs
DocumentProcessingService.process_file on it.  External outcomes (text
extraction, the text splitter, MongoDB ids, chunk row ids, failures) are
parameters of the model; the observable side effects are returned as a
trace. -/

/-- Fields of the InputFile row that ingestion reads. -/
structure FileData where
  id : String
  file_type : String
  original_filename : String
deriving DecidableEq

/-- Fields of the InputFile row that ingestion writes (and saves). -/
structure FileState where
  status : String
  error : String
  extracted_text : String
  mongo_id : String
deriving DecidableEq

/-- Observable side effects of the ingestion pipeline, in program order. -/
inductive Effect where
  | extract_text (fileId : String)
  | mongo_insert (fileId : String) (text : String)
  | create_chunk (fileId : String) (chunkIndex : Nat) (text : String)
  | embed_chunk (text : String)
  | vector_add (collection : String) (text : String) (md : Metadata)
deriving DecidableEq

/-- External world seen by one process_file run:
outerError - an exception raised inside process_file before or around the
  type dispatch (for example by input_file.file.path or a save), if any;
extractResult - outcome of the extract-and-store-to-MongoDB phase of
  process_pdf / process_docx / process_text;
split - the RecursiveCharacterTextSplitter;
embedFailAt - index of the chunk-loop iteration at whose start an exception
  is raised (none when the loop completes);
mongoId - id returned by the MongoDB insert;
chunkIds - id assigned to the ProcessedChunk row created at each index. -/
structure IngestEnv where
  outerError : Option String
  extractResult : Except String String
  split : String → List String
  embedFailAt : Option Nat
  mongoId : String
  chunkIds : Nat → String

/-- Metadata attached by DocumentProcessingService._store_embedding
(services.py lines 280-314) to the vector-store insertion of one chunk. -/
def chunk_metadata (chunkId : String) (f : FileData) (i : Nat) : Metadata :=
  [("chunk_id", MVal.s chunkId),
   ("file_id", MVal.s f.id),
   ("chunk_index", MVal.n (i : Int)),
   ("source_type", MVal.s f.file_type),
   ("filename", MVal.s f.original_filename)]

/-- Effects of one iteration of the chunk loop in process_chunks:
ProcessedChunk row creation, embedding, then the vector-store insertion via
_store_embedding into the "document_chunks" collection. -/
def chunk_effects (env : IngestEnv) (f : FileData) (i : Nat) (c : String) : List Effect :=
  [Effect.create_chunk f.id i c,
   Effect.embed_chunk c,
   Effect.vector_add "document_chunks" c (chunk_metadata (env.chunkIds i) f i)]

/-- Effects of DocumentProcessingService.process_chunks: split the text and
run the loop body per chunk, stopping where the environment injects an
exception (which process_chunks catches, returning False). -/
def process_chunks (env : IngestEnv) (f : FileData) (text : String) : List Effect :=
  let indexed := (env.split text).enum
  let seen := match env.embedFailAt with
    | none => indexed
    | some j => indexed.take j
  catMap (fun p => chunk_effects env f p.1 p.2) seen

/-- Human-readable file-kind used in the error messages of
process_pdf / process_docx / process_text. -/
def type_label : String → String
  | "pdf" => "PDF"
  | "docx" => "DOCX"
  | _ => "text file"

/-- Preview stored on the row: text[:1000] + "..." if len(text) > 1000
else text. -/
def preview_of (text : String) : String :=
  if text.length > 1000 then String.mk (text.data.take 1000) ++ "..." else text

/-- Shared body of process_pdf / process_docx / process_text: on success the
preview and MongoDB reference are recorded, chunks are processed, and True is
returned regardless of the chunk loop's result (its return value is ignored
by these methods); on failure the per-type error is recorded and False is
returned. -/
def process_typed (env : IngestEnv) (f : FileData) (st : FileState) :
    Bool × FileState × List Effect :=
  match env.extractResult with
  | Except.error e =>
      (false,
       { st with error := "Error processing " ++ type_label f.file_type ++ ": " ++ e },
       [])
  | Except.ok text =>
      (true,
       { st with extracted_text := preview_of text, mongo_id := env.mongoId },
       Effect.extract_text f.id :: Effect.mongo_insert f.id text
         :: process_chunks env f text)

/-- Models DocumentProcessingService.process_file (services.py lines 38-77):
returns (return value, saved row state, effect trace). -/
def process_file (env : IngestEnv) (f : FileData) : Bool × FileState × List Effect :=
  match env.outerError with
  | some e =>
      (false, ⟨"failed", "Error processing file: " ++ e, "", ""⟩, [])
  | none =>
      let st0 : FileState := ⟨"processing", "", "", ""⟩
      if f.file_type = "pdf" ∨ f.file_type = "docx" ∨ f.file_type = "txt" then
        match process_typed env f st0 with
        | (result, st, effs) =>
          if result then (true, { st with status := "processed" }, effs)
          else (false, { st with status := "failed", error := "Failed to process file" }, effs)
      else
        (false, ⟨"failed", "Unsupported file type: " ++ f.file_type, "", ""⟩, [])

/-- Celery task invocations this model tracks. -/
inductive CeleryTask where
  | process_file_task (fileId : String)
deriving DecidableEq

/-- Task enqueue recorded by the signal receiver; afterCommit is true when
the enqueue was registered through transaction.on_commit. -/
structure EnqueuedTask where
  afterCommit : Bool
  call : CeleryTask
deriving DecidableEq

/-- Models the post_save receiver _enqueue_ingest_on_create
(files/signals.py lines 8-13): on a newly created row with status
"uploaded" it registers process_file_task.delay(str(instance.id)) to run
after the enclosing transaction commits; otherwise it does nothing. -/
def _enqueue_ingest_on_create (created : Bool) (status : String) (fileId : String) :
    Option EnqueuedTask :=
  if created = true ∧ status = "uploaded" then
    some ⟨true, CeleryTask.process_file_task fileId⟩
  else none

/-! ## Transcript embedding model (backend/transcription/tasks.py) -/

/-- Transcript row fields read by embed_transcript_task, together with the
outcome of the optional MongoDB fetch: mongoText is the text field of the
fetched document when transcript.mongo_id is set and the lookup succeeds. -/
structure TranscriptData where
  id : String
  session_id : String
  status : String
  text : String
  mongoText : Option String
deriving DecidableEq

/-- Full text to embed: the MongoDB text when it was fetched and is truthy
(nonempty), else the row's own text field. -/
def full_text_of (t : TranscriptData) : String :=
  match t.mongoText with
  | some s => if s = "" then t.text else s
  | none => t.text

/-- One insertion into a Chroma collection. -/
structure VectorWrite where
  collection : String
  text : String
  metadata : Metadata
deriving DecidableEq

/-- Chroma document built for one transcript chunk (tasks.py lines 51-60). -/
def mk_transcript_write (t : TranscriptData) (c : String) : VectorWrite :=
  ⟨"session_" ++ t.session_id, c,
   [("type", MVal.s "transcript"),
    ("transcript_id", MVal.s t.id),
    ("session_id", MVal.s t.session_id)]⟩

/-- Models embed_transcript_task (transcription/tasks.py lines 27-76): the
vector-store insertions it performs.  A transcript that is not completed, or
whose full text is empty, is skipped; otherwise every chunk of the split
text is added to the session's Chroma collection. -/
def embed_transcript_task (split : String → List String) (t : TranscriptData) :
    List VectorWrite :=
  if t.status ≠ "completed" then []
  else if full_text_of t = "" then []
  else (split (full_text_of t)).map (mk_transcript_write t)

/-! ## Export rendering model (backend/reports/tasks.py, _generate_pdf and
_generate_docx) -/

/-- OutputField row fields used by the export helpers. -/
structure FieldData where
  label : String
  value : String
  order : Nat
deriving DecidableEq

/-- Ascending ordering on the order attribute, as produced by
report.fields.all().order_by("order"). -/
def field_le (a b : FieldData) : Prop := a.order ≤ b.order

instance : DecidableRel field_le := fun a b => Nat.decLe a.order b.order

instance : IsTotal FieldData field_le := ⟨fun a b => Nat.le_total a.order b.order⟩

instance : IsTrans FieldData field_le := ⟨fun _ _ _ h1 h2 => Nat.le_trans h1 h2⟩

/-- Fields in export order. -/
def sort_fields (fields : List FieldData) : List FieldData :=
  List.insertionSort field_le fields

/-- Flowable/paragraph kinds the export helpers emit, abstracted over
styling. -/
inductive RenderElem where
  | title (text : String)
  | spacer (height : Nat)
  | para (text : String)
  | heading (text : String)
deriving DecidableEq

/-- Element list built by _generate_pdf (reports/tasks.py lines 369-439):
title, spacer, generation date, spacer, then per ordered field a heading
with its label and a paragraph with its value. -/
def _generate_pdf_elements (reportTitle date : String) (fields : List FieldData) :
    List RenderElem :=
  [RenderElem.title reportTitle, RenderElem.spacer 12,
   RenderElem.para ("Generated: " ++ date), RenderElem.spacer 24]
    ++ catMap (fun fl => [RenderElem.heading fl.label, RenderElem.para fl.value])
        (sort_fields fields)

/-- Element list built by _generate_docx (reports/tasks.py lines 442-474):
title heading, generation date paragraph, then per ordered field a heading
with its label and a paragraph with its value. -/
def _generate_docx_elements (reportTitle date : String) (fields : List FieldData) :
    List RenderElem :=
  RenderElem.title reportTitle :: RenderElem.para ("Generated: " ++ date)
    :: catMap (fun fl => [RenderElem.heading fl.label, RenderElem.para fl.value])
        (sort_fields fields)

/-! ## Concrete fixtures used by the witness theorems -/

/-- Store holding one transcript chunk of session s1. -/
def sample_store : ChromaStore :=
  [("session_s1", ⟨"alpha", [("session_id", MVal.s "s1"), ("type", MVal.s "transcript")]⟩)]

/-- Session owning the sample chunk. -/
def sample_session_a : SessionData := ⟨"s1", []⟩

/-- A different session, with one file. -/
def sample_session_b : SessionData := ⟨"s2", ["f1"]⟩

/-- The chunk stored in sample_store. -/
def sample_chunk : RagDoc :=
  ⟨"alpha", [("session_id", MVal.s "s1"), ("type", MVal.s "transcript")]⟩

/-- Benign ingestion environment: extraction yields a short text, the
splitter returns the text as a single chunk, and nothing fails. -/
def sample_env : IngestEnv :=
  ⟨none, Except.ok "hello world", fun s => [s], none, "m1", fun i => "chunk" ++ toString i⟩

/-- A PDF input file. -/
def sample_pdf : FileData := ⟨"f1", "pdf", "a.pdf"⟩

/-- An audio input file (unsupported by the document pipeline). -/
def sample_audio : FileData := ⟨"f2", "audio", "a.mp3"⟩

/-- A completed transcript with inline text. -/
def sample_transcript : TranscriptData := ⟨"t1", "s1", "completed", "hello", none⟩

/-- One-chunk splitter used with the sample transcript. -/
def sample_split : String → List String := fun s => [s]

/-! ## Helper lemmas -/

theorem mem_catMap {f : α → List β} {b : β} :
    ∀ {l : List α}, b ∈ catMap f l ↔ ∃ a ∈ l, b ∈ f a := by
  intro l
  induction l with
  | nil => simp [catMap]
  | cons x xs ih => simp [catMap, ih]

theorem mem_chroma_query {store : ChromaStore} {coll : String} {filt : Metadata → Bool}
    {d : RagDoc} (h : d ∈ chroma_query store coll filt) : filt d.metadata = true := by
  unfold chroma_query at h
  obtain ⟨p, hp, rfl⟩ := List.mem_map.mp h
  have h2 := (List.mem_filter.mp hp).2
  rw [Bool.and_eq_true] at h2
  exact h2.2

theorem doc_filter_spec {fileIds : List String} {sessionId : String} {md : Metadata}
    (h : doc_metadata_filter fileIds sessionId md = true) :
    (∃ v, md.lookup "file_id" = some (MVal.s v) ∧ v ∈ fileIds) ∧
      md.lookup "session_id" = some (MVal.s sessionId) := by
  unfold doc_metadata_filter at h
  rw [Bool.and_eq_true] at h
  obtain ⟨h1, h2⟩ := h
  refine ⟨?_, of_decide_eq_true h2⟩
  cases hl : md.lookup "file_id" with
  | none => rw [hl] at h1; cases h1
  | some v =>
    cases v with
    | s w => rw [hl] at h1; exact ⟨w, rfl, by simpa using h1⟩
    | n w => rw [hl] at h1; cases h1

theorem transcript_filter_spec {sessionId : String} {md : Metadata}
    (h : transcript_metadata_filter sessionId md = true) :
    md.lookup "session_id" = some (MVal.s sessionId) ∧
      md.lookup "type" = some (MVal.s "transcript") := by
  unfold transcript_metadata_filter at h
  rw [Bool.and_eq_true] at h
  exact ⟨of_decide_eq_true h.1, of_decide_eq_true h.2⟩

theorem mem_rag_merge_chunks {a b : List RagDoc} {k : Nat} {c : RagDoc}
    (h : c ∈ rag_merge_chunks a b k) : c ∈ a ++ b := by
  simp only [rag_merge_chunks] at h
  split at h
  · exact h
  · exact (List.perm_insertionSort chunk_ge (a ++ b)).mem_iff.mp
      ((List.take_sublist k _).mem h)

theorem string_append_ne_empty (a b : String) (ha : a.length ≠ 0) : a ++ b ≠ "" := by
  intro h
  have h2 : (a ++ b).length = 0 := by rw [h]; rfl
  rw [String.length_append] at h2
  omega

theorem session_collection_ne_document_chunks (sessionId : String) :
    "session_" ++ sessionId ≠ "document_chunks" := by
  intro h
  have h3 : ("session_" ++ sessionId).data.take 1 = "document_chunks".data.take 1 := by
    rw [h]
  rw [String.data_append] at h3
  simp at h3

theorem doc_filter_false_of_no_session (fileIds : List String) (sessionId : String)
    (md : Metadata) (h : md.lookup "session_id" = none) :
    doc_metadata_filter fileIds sessionId md = false := by
  unfold doc_metadata_filter
  rw [h]
  simp

/-! ## Claim theorems -/

/-- C1: In generate_report_task, retrieval is filtered by session and file
ownership: every document-chunk query requires the chunk's file_id to be in
the session's file ids and its session_id to equal the session id, and every
transcript-chunk query requires session_id equal to the session id and type
equal to "transcript"; consequently a chunk whose metadata ties it only to a
different session can never appear in the retrieved context (nor in its
merged chunk list) of a report generated for this session. -/
theorem c1_retrieval_session_isolation
    (store : ChromaStore) (s1 s2 : SessionData) (c : RagDoc) (k : Nat)
    (hne : s1.id ≠ s2.id)
    (hc : c.metadata.lookup "session_id" = some (MVal.s s1.id)) :
    (∀ d ∈ doc_retrieve store s2,
        (∃ v, d.metadata.lookup "file_id" = some (MVal.s v) ∧ v ∈ s2.fileIds) ∧
        d.metadata.lookup "session_id" = some (MVal.s s2.id)) ∧
    (∀ d ∈ trans_retrieve store s2,
        d.metadata.lookup "session_id" = some (MVal.s s2.id) ∧
        d.metadata.lookup "type" = some (MVal.s "transcript")) ∧
    c ∉ doc_retrieve store s2 ∧
    c ∉ trans_retrieve store s2 ∧
    c ∉ rag_merge_chunks (doc_retrieve store s2) (trans_retrieve store s2) k := by
  have hdoc : ∀ d ∈ doc_retrieve store s2,
      (∃ v, d.metadata.lookup "file_id" = some (MVal.s v) ∧ v ∈ s2.fileIds) ∧
      d.metadata.lookup "session_id" = some (MVal.s s2.id) := by
    intro d hd
    exact doc_filter_spec (mem_chroma_query hd)
  have htrans : ∀ d ∈ trans_retrieve store s2,
      d.metadata.lookup "session_id" = some (MVal.s s2.id) ∧
      d.metadata.lookup "type" = some (MVal.s "transcript") := by
    intro d hd
    exact transcript_filter_spec (mem_chroma_query hd)
  have hnd : c ∉ doc_retrieve store s2 := by
    intro hmem
    have h2 := (hdoc c hmem).2
    rw [hc] at h2
    exact hne (by injection h2 with h3; injection h3)
  have hnt : c ∉ trans_retrieve store s2 := by
    intro hmem
    have h2 := (htrans c hmem).1
    rw [hc] at h2
    exact hne (by injection h2 with h3; injection h3)
  refine ⟨hdoc, htrans, hnd, hnt, ?_⟩
  intro hmem
  rcases List.mem_append.mp (mem_rag_merge_chunks hmem) with h | h
  · exact hnd h
  · exact hnt h

/-- Witness for C1 at concrete data: the transcript chunk of session s1 is
excluded from both retrievers of a report for session s2. -/
theorem c1_retrieval_session_isolation_witness :
    sample_chunk.metadata.lookup "session_id" = some (MVal.s "s1") ∧
    sample_chunk ∉ doc_retrieve sample_store sample_session_b ∧
    sample_chunk ∉ trans_retrieve sample_store sample_session_b :=
  have h := c1_retrieval_session_isolation sample_store sample_session_a sample_session_b
    sample_chunk 5 (by decide) (by decide)
  ⟨by decide, h.2.2.1, h.2.2.2.1⟩

/-- C2: per report field, generate_report_task concatenates document and
transcript chunks, sorts the combined list in non-increasing order of the
"similarity" metadata value (0 when absent), truncates it to at most
RAG_TOP_K chunks (default 5), and emits the surviving chunks in that order
into the context of the system prompt given to the LLM. -/
theorem c2_merge_sort_truncate_context
    (docChunks transChunks : List RagDoc) (k : Nat) (fieldLabel : String) :
    RAG_TOP_K none = some 5 ∧
    List.Pairwise (fun a b => sim_of b ≤ sim_of a)
      (rag_merge_chunks docChunks transChunks k) ∧
    (rag_merge_chunks docChunks transChunks k).length ≤ k ∧
    List.Sublist (rag_merge_chunks docChunks transChunks k)
      (List.insertionSort chunk_ge (docChunks ++ transChunks)) ∧
    (List.insertionSort chunk_ge (docChunks ++ transChunks)).Perm
      (docChunks ++ transChunks) ∧
    build_context (rag_merge_chunks docChunks transChunks k) =
      String.join (((rag_merge_chunks docChunks transChunks k).enum).map
        (fun p => render_chunk p.1 p.2)) ∧
    (∃ pre post, ∀ context, system_prompt fieldLabel context = pre ++ context ++ post) := by
  refine ⟨by decide, ?_, ?_, ?_, List.perm_insertionSort chunk_ge _, rfl,
    ⟨system_prompt_head fieldLabel, "\n            ", fun _ => rfl⟩⟩
  · have hs : List.Pairwise chunk_ge
        (List.insertionSort chunk_ge (docChunks ++ transChunks)) :=
      List.sorted_insertionSort chunk_ge (docChunks ++ transChunks)
    simp only [rag_merge_chunks]
    split
    · simp_all
    · exact hs.sublist (List.take_sublist k _)
  · simp only [rag_merge_chunks]
    split
    · simp_all
    · exact List.length_take_le k _
  · simp only [rag_merge_chunks]
    split
    · simp_all
    · exact List.take_sublist k _

/-- C3 counterexample: contrary to the claim that the document retriever and
the transcript retriever query two distinct Chroma collections, at a concrete
session both retrievers are built over the same collection name. -/
theorem c3_two_collections_counterexample :
    doc_retriever_collection "3c9d" = trans_retriever_collection "3c9d" := rfl

/-- C3 amended: generate_report_task builds the document retriever and the
transcript retriever over two Chroma instances that name the same collection,
session_<session.id>; the two retrievers differ only in their metadata
filters, not in the collection they query. -/
theorem c3_same_collection_amended (sessionId : String) :
    doc_retriever_collection sessionId = "session_" ++ sessionId ∧
    trans_retriever_collection sessionId = "session_" ++ sessionId ∧
    doc_retriever_collection sessionId = trans_retriever_collection sessionId :=
  ⟨rfl, rfl, rfl⟩

/-- C4: saving a newly created InputFile row (status "uploaded", as set by
the upload path) fires the post-save receiver, which enqueues
process_file_task for that file; that task runs the ingestion pipeline for
the file: text extraction, storage, then per text chunk a chunk row, an
embedding, and a vector-store insertion. -/
theorem c4_post_save_enqueues_ingest
    (created : Bool) (status : String) (env : IngestEnv) (f : FileData) (text : String)
    (hcreated : created = true) (hstatus : status = "uploaded")
    (houter : env.outerError = none)
    (hft : f.file_type = "pdf" ∨ f.file_type = "docx" ∨ f.file_type = "txt")
    (hextract : env.extractResult = Except.ok text)
    (hfail : env.embedFailAt = none) :
    _enqueue_ingest_on_create created status f.id =
      some ⟨true, CeleryTask.process_file_task f.id⟩ ∧
    (process_file env f).1 = true ∧
    (process_file env f).2.1.status = "processed" ∧
    (process_file env f).2.2 =
      Effect.extract_text f.id :: Effect.mongo_insert f.id text ::
        catMap (fun p => chunk_effects env f p.1 p.2) ((env.split text).enum) := by
  have hpf : process_file env f =
      (true,
       ⟨"processed", "", preview_of text, env.mongoId⟩,
       Effect.extract_text f.id :: Effect.mongo_insert f.id text ::
         catMap (fun p => chunk_effects env f p.1 p.2) ((env.split text).enum)) := by
    simp [process_file, houter, hft, process_typed, hextract, process_chunks, hfail]
  refine ⟨?_, ?_, ?_, ?_⟩
  · simp [_enqueue_ingest_on_create, hcreated, hstatus]
  · rw [hpf]
  · rw [hpf]
  · rw [hpf]

/-- Witness for C4 at a concrete upload: the receiver enqueues the ingest
task and the pipeline processes the file. -/
theorem c4_post_save_enqueues_ingest_witness :
    _enqueue_ingest_on_create true "uploaded" sample_pdf.id =
      some ⟨true, CeleryTask.process_file_task sample_pdf.id⟩ ∧
    (process_file sample_env sample_pdf).1 = true ∧
    (process_file sample_env sample_pdf).2.1.status = "processed" :=
  have h := c4_post_save_enqueues_ingest true "uploaded" sample_env sample_pdf
    "hello world" rfl rfl rfl (Or.inl rfl) rfl rfl
  ⟨h.1, h.2.1, h.2.2.1⟩

/-- C5: for an InputFile whose file_type is not pdf, docx or txt,
process_file performs no extraction, chunking or embedding (empty effect
trace), saves status "failed" with error "Unsupported file type: <type>",
and returns False. -/
theorem c5_unsupported_file_type (env : IngestEnv) (f : FileData)
    (houter : env.outerError = none)
    (hft : f.file_type ≠ "pdf" ∧ f.file_type ≠ "docx" ∧ f.file_type ≠ "txt") :
    process_file env f =
      (false, ⟨"failed", "Unsupported file type: " ++ f.file_type, "", ""⟩, []) := by
  have hcond : ¬(f.file_type = "pdf" ∨ f.file_type = "docx" ∨ f.file_type = "txt") := by
    obtain ⟨h1, h2, h3⟩ := hft
    rintro (h | h | h) <;> contradiction
  simp [process_file, houter, hcond]

/-- Witness for C5 at a concrete audio file. -/
theorem c5_unsupported_file_type_witness :
    process_file sample_env sample_audio =
      (false, ⟨"failed", "Unsupported file type: " ++ sample_audio.file_type, "", ""⟩, []) :=
  c5_unsupported_file_type sample_env sample_audio rfl ⟨by decide, by decide, by decide⟩

/-- C6: embed_transcript_task writes to the vector store only for a
transcript whose status is "completed"; when it embeds, it splits the full
text and adds every chunk to the Chroma collection session_<session_id>,
each chunk carrying metadata type "transcript", the transcript's id and the
transcript's session id. -/
theorem c6_embed_transcript (split : String → List String) (t : TranscriptData) :
    (embed_transcript_task split t ≠ [] → t.status = "completed") ∧
    (∀ w ∈ embed_transcript_task split t,
        w.collection = "session_" ++ t.session_id ∧
        w.metadata.lookup "type" = some (MVal.s "transcript") ∧
        w.metadata.lookup "transcript_id" = some (MVal.s t.id) ∧
        w.metadata.lookup "session_id" = some (MVal.s t.session_id)) ∧
    (t.status = "completed" → full_text_of t ≠ "" →
        embed_transcript_task split t =
          (split (full_text_of t)).map (mk_transcript_write t)) := by
  by_cases hst : t.status = "completed"
  · by_cases hft : full_text_of t = ""
    · refine ⟨fun _ => hst, ?_, fun _ hne => absurd hft hne⟩
      intro w hw
      simp [embed_transcript_task, hst, hft] at hw
    · have heq : embed_transcript_task split t =
          (split (full_text_of t)).map (mk_transcript_write t) := by
        simp [embed_transcript_task, hst, hft]
      refine ⟨fun _ => hst, ?_, fun _ _ => heq⟩
      intro w hw
      rw [heq] at hw
      obtain ⟨c, _, rfl⟩ := List.mem_map.mp hw
      exact ⟨rfl, rfl, rfl, rfl⟩
  · have heq : embed_transcript_task split t = [] := by
      simp [embed_transcript_task, hst]
    refine ⟨fun hne => absurd heq hne, ?_, fun hc => absurd hc hst⟩
    intro w hw
    rw [heq] at hw
    cases hw

/-- Witness for C6 at a concrete completed transcript: the task's insertions
are exactly the mapped chunks of the full text. -/
theorem c6_embed_transcript_witness :
    embed_transcript_task sample_split sample_transcript =
      (sample_split (full_text_of sample_transcript)).map
        (mk_transcript_write sample_transcript) :=
  (c6_embed_transcript sample_split sample_transcript).2.2 rfl (by decide)

/-- C7: both export helpers put the report title first and then render the
output fields sorted in ascending order of their order attribute, each field
as its label followed by its value (with the generation date between title
and fields). -/
theorem c7_export_field_order (reportTitle date : String) (fields : List FieldData) :
    (_generate_pdf_elements reportTitle date fields).head? =
      some (RenderElem.title reportTitle) ∧
    (_generate_docx_elements reportTitle date fields).head? =
      some (RenderElem.title reportTitle) ∧
    _generate_pdf_elements reportTitle date fields =
      [RenderElem.title reportTitle, RenderElem.spacer 12,
       RenderElem.para ("Generated: " ++ date), RenderElem.spacer 24]
        ++ catMap (fun fl => [RenderElem.heading fl.label, RenderElem.para fl.value])
            (sort_fields fields) ∧
    _generate_docx_elements reportTitle date fields =
      RenderElem.title reportTitle :: RenderElem.para ("Generated: " ++ date)
        :: catMap (fun fl => [RenderElem.heading fl.label, RenderElem.para fl.value])
            (sort_fields fields) ∧
    List.Pairwise (fun a b => a.order ≤ b.order) (sort_fields fields) ∧
    (sort_fields fields).Perm fields :=
  ⟨rfl, rfl, rfl, rfl,
   List.sorted_insertionSort field_le fields,
   List.perm_insertionSort field_le fields⟩

theorem vector_add_mem_process_chunks {env : IngestEnv} {f : FileData} {text : String}
    {coll chunkText : String} {md : Metadata}
    (h : Effect.vector_add coll chunkText md ∈ process_chunks env f text) :
    coll = "document_chunks" ∧ ∃ cid i, md = chunk_metadata cid f i := by
  unfold process_chunks at h
  obtain ⟨p, _, hp⟩ := mem_catMap.mp h
  simp [chunk_effects] at hp
  obtain ⟨hcoll, _, hmd⟩ := hp
  exact ⟨hcoll, env.chunkIds p.1, p.1, hmd⟩

theorem vector_add_mem_process_file {env : IngestEnv} {f : FileData}
    {coll chunkText : String} {md : Metadata}
    (hmem : Effect.vector_add coll chunkText md ∈ (process_file env f).2.2) :
    coll = "document_chunks" ∧ ∃ cid i, md = chunk_metadata cid f i := by
  unfold process_file at hmem
  cases henv : env.outerError with
  | some e => rw [henv] at hmem; cases hmem
  | none =>
    rw [henv] at hmem
    by_cases hty : f.file_type = "pdf" ∨ f.file_type = "docx" ∨ f.file_type = "txt"
    · rw [if_pos hty] at hmem
      cases hex : env.extractResult with
      | error e => simp [process_typed, hex] at hmem
      | ok text =>
        simp only [process_typed, hex] at hmem
        rcases List.mem_cons.mp hmem with h | h
        · cases h
        · rcases List.mem_cons.mp h with h2 | h2
          · cases h2
          · exact vector_add_mem_process_chunks h2
    · rw [if_neg hty] at hmem
      cases hmem

/-- C8: every chunk written by the file-ingestion pipeline goes to the
Chroma collection document_chunks with metadata keys exactly chunk_id,
file_id, chunk_index, source_type and filename (no session_id key), so no
such write can ever satisfy the document retriever's collection
(session_<session.id>) together with its session_id-requiring filter. -/
theorem c8_ingest_write_never_retrieved
    (env : IngestEnv) (f : FileData) (coll chunkText : String) (md : Metadata)
    (hmem : Effect.vector_add coll chunkText md ∈ (process_file env f).2.2) :
    coll = "document_chunks" ∧
    md.map Prod.fst = ["chunk_id", "file_id", "chunk_index", "source_type", "filename"] ∧
    md.lookup "session_id" = none ∧
    ∀ (sessionId : String) (fileIds : List String),
      coll ≠ doc_retriever_collection sessionId ∧
      doc_metadata_filter fileIds sessionId md = false := by
  obtain ⟨hcoll, cid, i, hmd⟩ := vector_add_mem_process_file hmem
  subst hcoll
  subst hmd
  refine ⟨rfl, rfl, rfl, ?_⟩
  intro sessionId fileIds
  constructor
  · exact fun h => session_collection_ne_document_chunks sessionId h.symm
  · exact doc_filter_false_of_no_session fileIds sessionId _ rfl

/-- Witness for C8: the single vector write of the sample ingestion run has
no session_id key and fails the document filter of any session. -/
theorem c8_ingest_write_never_retrieved_witness :
    (chunk_metadata "chunk0" sample_pdf 0).lookup "session_id" = none ∧
    doc_metadata_filter ["f1"] "s2" (chunk_metadata "chunk0" sample_pdf 0) = false ∧
    "document_chunks" ≠ doc_retriever_collection "s2" :=
  have h := c8_ingest_write_never_retrieved sample_env sample_pdf "document_chunks"
    "hello world" (chunk_metadata "chunk0" sample_pdf 0) (by decide)
  ⟨h.2.2.1, (h.2.2.2 "s2" ["f1"]).2, (h.2.2.2 "s2" ["f1"]).1⟩

/-- C9: the post-save receiver enqueues the ingest task only for a newly
created row with status "uploaded", always through transaction.on_commit
(deferred until the transaction commits); a re-save or any other status
never triggers it. -/
theorem c9_enqueue_only_on_create_uploaded (created : Bool) (status fileId : String) :
    (_enqueue_ingest_on_create created status fileId ≠ none →
        created = true ∧ status = "uploaded" ∧
        _enqueue_ingest_on_create created status fileId =
          some ⟨true, CeleryTask.process_file_task fileId⟩) ∧
    (created = false → _enqueue_ingest_on_create created status fileId = none) ∧
    (status ≠ "uploaded" → _enqueue_ingest_on_create created status fileId = none) := by
  by_cases h : created = true ∧ status = "uploaded"
  · refine ⟨fun _ => ⟨h.1, h.2, by simp [_enqueue_ingest_on_create, h]⟩,
      fun hc => ?_, fun hs => absurd h.2 hs⟩
    rw [h.1] at hc
    cases hc
  · have hn : _enqueue_ingest_on_create created status fileId = none := by
      simp only [_enqueue_ingest_on_create, if_neg h]
    exact ⟨fun hne => absurd hn hne, fun _ => hn, fun _ => hn⟩

/-- Witness for C9: a fresh row with status "uploaded" does enqueue the
deferred task. -/
theorem c9_enqueue_only_on_create_uploaded_witness :
    _enqueue_ingest_on_create true "uploaded" "f9" =
      some ⟨true, CeleryTask.process_file_task "f9"⟩ :=
  ((c9_enqueue_only_on_create_uploaded true "uploaded" "f9").1 (by decide)).2.2

/-- C10: whenever process_file returns, the saved status is "processed" when
the return value is True, and "failed" with a nonempty error message when the
return value is False; no other status is possible, exceptions included. -/
theorem c10_process_file_status (env : IngestEnv) (f : FileData) :
    ((process_file env f).1 = true ∧ (process_file env f).2.1.status = "processed") ∨
    ((process_file env f).1 = false ∧ (process_file env f).2.1.status = "failed" ∧
      (process_file env f).2.1.error ≠ "") := by
  cases henv : env.outerError with
  | some e =>
    right
    refine ⟨by simp [process_file, henv], by simp [process_file, henv], ?_⟩
    simp only [process_file, henv]
    exact string_append_ne_empty "Error processing file: " e (by decide)
  | none =>
    by_cases hty : f.file_type = "pdf" ∨ f.file_type = "docx" ∨ f.file_type = "txt"
    · cases hex : env.extractResult with
      | error e =>
        right
        refine ⟨?_, ?_, ?_⟩ <;> simp [process_file, henv, hty, process_typed, hex]
      | ok text =>
        left
        exact ⟨by simp [process_file, henv, hty, process_typed, hex],
          by simp [process_file, henv, hty, process_typed, hex]⟩
    · right
      refine ⟨by simp [process_file, henv, hty], by simp [process_file, henv, hty], ?_⟩
      simp only [process_file, henv, hty, if_neg hty]
      exact string_append_ne_empty "Unsupported file type: " f.file_type (by decide)
